import Mathlib

/-!
Shallow embedding of the Gemini chatbot in `src/main.py`.

Python strings are modelled as `String` (the raw stdin line of the session
loop as `List Char`), JSON values decoded by `response.json()` as `JVal`,
and Python exceptions as `PyErr` threaded through `Except`.  The retry loop
`for attempt in range(MAX_RETRIES)` (line 77) walks the literal index list
`List.range MAX_RETRIES`; the durations passed to `time.sleep` and the number
of `requests.post` invocations are recorded in the result so that the retry
and call-count contracts of the spec can be stated.  The `Conversation`
class is modelled twice: at the value level (`List Turn`, the view used by
`create_message_content` and `get_response`) and at the reference level
(`PyHeap`/`ConvObj`), because `get_messages` (line 34) returns the live
`self.history` list object, whose aliasing behaviour is itself under test.
-/

/-- JSON-like values, the possible results of `response.json()` and the
possible fields inside them. -/
inductive JVal where
  | null
  | bool (b : Bool)
  | num (n : Int)
  | str (s : String)
  | arr (xs : List JVal)
  | obj (fields : List (String × JVal))

/-- One stored message, the dict `{"role": role, "text": content}` appended by
`Conversation.add_message` (line 31).  The text is a `JVal` because
`add_message("model", response_text)` (line 94) stores whatever JSON value
`candidates[0].content.parts[0].text` decoded to, not necessarily a string. -/
structure Turn where
  role : String
  text : JVal

/-- Python exception values raised and caught inside `get_response`.
`requestException` stands for `requests.exceptions.RequestException`,
the only class caught by the inner handler (line 107); every variant is
caught by the outer `except Exception` handler (line 113). -/
inductive PyErr where
  | keyError (k : String)
  | typeError (msg : String)
  | indexError (msg : String)
  | attributeError (msg : String)
  | valueError (msg : String)
  | requestException (msg : String)
deriving DecidableEq

/-- A single-quote character as a string, used to render `str(KeyError)`
and the 404 message exactly as Python prints them. -/
def squote : String := String.singleton '\''

/-- `str(e)` for a Python exception: `str(KeyError(k))` is the repr of the
missing key, for the other variants it is the stored message. -/
def PyErr.pyStr : PyErr → String
  | .keyError k => squote ++ k ++ squote
  | .typeError msg => msg
  | .indexError msg => msg
  | .attributeError msg => msg
  | .valueError msg => msg
  | .requestException msg => msg

/-- First-match lookup in the field list of a JSON object, the model of
Python dict access (JSON objects have unique keys, so first-match agrees
with dict semantics). -/
def lookupField (fields : List (String × JVal)) (k : String) : Option JVal :=
  match fields with
  | [] => none
  | (k', v) :: rest => if k' = k then some v else lookupField rest k

/-- Whether `pat` occurs as a contiguous sublist of the second list; the
model of the Python substring test `pat in s`. -/
def containsSublist (pat : List Char) : List Char → Bool
  | [] => pat.isEmpty
  | c :: rest => pat.isPrefixOf (c :: rest) || containsSublist pat rest

/-- Python `pat in s` for strings. -/
def strIn (pat s : String) : Bool := containsSublist pat.toList s.toList

/-- Python `k in j`: key membership for dicts, element equality for lists
(a string compares equal only to the same string), substring for strings,
`TypeError` otherwise. -/
def jContains (k : String) (j : JVal) : Except PyErr Bool :=
  match j with
  | .obj fields => .ok (lookupField fields k).isSome
  | .arr xs =>
    .ok (xs.any fun v =>
      match v with
      | .str s => s == k
      | _ => false)
  | .str s => .ok (strIn k s)
  | _ => .error (.typeError "argument of type is not iterable")

/-- Python subscript `j[k]` with a string key: dict lookup raising
`KeyError` when the key is missing, `TypeError` on any non-dict value. -/
def jGet (j : JVal) (k : String) : Except PyErr JVal :=
  match j with
  | .obj fields =>
    match lookupField fields k with
    | some v => .ok v
    | none => .error (.keyError k)
  | .arr _ => .error (.typeError "list indices must be integers or slices, not str")
  | .str _ => .error (.typeError "string indices must be integers")
  | _ => .error (.typeError "object is not subscriptable")

/-- Python `j.get(k)` on a dict: the value when present, `None` when
missing; `AttributeError` when `j` is not a dict. -/
def jGetMethod (j : JVal) (k : String) : Except PyErr JVal :=
  match j with
  | .obj fields => .ok ((lookupField fields k).getD .null)
  | _ => .error (.attributeError "object has no attribute get")

/-- Python `len(j)` for dicts, lists and strings; `TypeError` otherwise. -/
def jLen (j : JVal) : Except PyErr Nat :=
  match j with
  | .obj fields => .ok fields.length
  | .arr xs => .ok xs.length
  | .str s => .ok s.length
  | _ => .error (.typeError "object has no len")

/-- Python subscript `j[i]` with a numeric index on a list; `IndexError`
when out of range, `TypeError` on non-list values (string indexing is not
exercised by the code under test, so it is folded into `TypeError`). -/
def jIndex (j : JVal) (i : Nat) : Except PyErr JVal :=
  match j with
  | .arr xs =>
    match xs.get? i with
    | some v => .ok v
    | none => .error (.indexError "list index out of range")
  | _ => .error (.typeError "object is not subscriptable by integers")

/-- Python truthiness of a JSON value, used by
`if response_data[...].get("blockReason"):` (line 86). -/
def jTruthy : JVal → Bool
  | .null => false
  | .bool b => b
  | .num n => n != 0
  | .str s => s != ""
  | .arr xs => !xs.isEmpty
  | .obj fields => !fields.isEmpty

/-- Python `isinstance(x, str)` for a JSON value. -/
def JVal.isStr : JVal → Bool
  | .str _ => true
  | _ => false

/-- Line 18: maximum input length guard used by the session loop. -/
def MAX_TOKENS : Nat := 30720

/-- Line 19: base delay, in seconds, between retried requests. -/
def RATE_LIMIT_DELAY : Nat := 1

/-- Line 20: number of attempts of the retry loop. -/
def MAX_RETRIES : Nat := 3

/-- Line 21: the configured model name. -/
def MODEL_NAME : String := "gemini-2.0-flash"

/-- `Conversation.add_message` (lines 30-31) at the value level:
`self.history.append({"role": role, "text": content})`. -/
def Conversation.add_message (history : List Turn) (role : String) (content : JVal) : List Turn :=
  history ++ [⟨role, content⟩]

/-- `Conversation.get_messages` (lines 33-34) at the value level: the
current sequence of stored turns. -/
def Conversation.get_messages (history : List Turn) : List Turn := history

/-- `Conversation.clear` (lines 36-37) at the value level:
`self.history = []`. -/
def Conversation.clear (_history : List Turn) : List Turn := []

/-- One entry of the `contents` list built by `create_message_content`
(lines 47-50 and 53-56): `{"role": role, "parts": [{"text": text}]}`. -/
def newEntry (role : String) (text : JVal) : JVal :=
  .obj [("role", .str role), ("parts", .arr [.obj [("text", text)]])]

/-- `create_message_content` (lines 39-58): map every stored turn to a
`{role, parts:[{text}]}` entry in order, then append one entry with role
`user` holding the new message.  It only reads the store through
`get_messages`, so it has no side effect on it. -/
def create_message_content (conversation : List Turn) (new_message : String) : JVal :=
  .obj [("contents", .arr
    ((Conversation.get_messages conversation).map (fun msg => newEntry msg.role msg.text) ++
      [newEntry "user" (.str new_message)]))]

/-- The `contents` field of a request payload, for stating properties of
`create_message_content`. -/
def payloadContents (j : JVal) : List JVal :=
  match j with
  | .obj [(_, .arr entries)] => entries
  | _ => []

/-- Lines 89-96: the candidates branch of the 200 handler.  Mirrors
`if "candidates" in response_data and len(response_data["candidates"]) > 0:`
followed by `content = response_data["candidates"][0]["content"]`, the
`parts` check, and the success path that appends the user and model turns
and returns `response_text`; every subscript that Python would raise on is
threaded through `Except`. -/
def interpretCandidates (prompt : String) (conv : List Turn) (response_data : JVal) :
    Except PyErr (JVal × List Turn) :=
  match jContains "candidates" response_data with
  | .error e => .error e
  | .ok hasCandidates =>
    if hasCandidates then
      match jGet response_data "candidates" with
      | .error e => .error e
      | .ok cands =>
        match jLen cands with
        | .error e => .error e
        | .ok n =>
          if n > 0 then
            match jIndex cands 0 with
            | .error e => .error e
            | .ok cand0 =>
              match jGet cand0 "content" with
              | .error e => .error e
              | .ok content =>
                match jContains "parts" content with
                | .error e => .error e
                | .ok hasParts =>
                  if hasParts then
                    match jGet content "parts" with
                    | .error e => .error e
                    | .ok parts =>
                      match jLen parts with
                      | .error e => .error e
                      | .ok m =>
                        if m > 0 then
                          match jIndex parts 0 with
                          | .error e => .error e
                          | .ok part0 =>
                            match jGet part0 "text" with
                            | .error e => .error e
                            | .ok response_text =>
                              .ok (response_text,
                                Conversation.add_message
                                  (Conversation.add_message conv "user" (.str prompt))
                                  "model" response_text)
                        else .ok (.str "No response generated", conv)
                  else .ok (.str "No response generated", conv)
          else .ok (.str "No response generated", conv)
    else .ok (.str "No response generated", conv)

/-- Lines 84-96: the whole 200-body handler, starting with the safety
check `if "promptFeedback" in response_data:` and
`if response_data["promptFeedback"].get("blockReason"):`. -/
def interpret200 (prompt : String) (conv : List Turn) (response_data : JVal) :
    Except PyErr (JVal × List Turn) :=
  match jContains "promptFeedback" response_data with
  | .error e => .error e
  | .ok hasPF =>
    if hasPF then
      match jGet response_data "promptFeedback" with
      | .error e => .error e
      | .ok pf =>
        match jGetMethod pf "blockReason" with
        | .error e => .error e
        | .ok blockReason =>
          if jTruthy blockReason then
            .ok (.str "I apologize, but I cannot respond to that prompt due to safety concerns.",
              conv)
          else interpretCandidates prompt conv response_data
    else interpretCandidates prompt conv response_data

/-- The outcome of one `requests.post` invocation (line 79): either an HTTP
response carrying a status code, the result of a later `response.json()`
call (which may itself raise), and the raw `response.text`; or an exception
raised by `post` itself. -/
inductive AttemptResult where
  | resp (status : Nat) (jsonResult : Except PyErr JVal) (text : String)
  | raised (e : PyErr)

/-- What the body of one loop iteration decides before the retry logic:
either the function returns value `v` with history `conv`, or control fell
into the 429 branch (whose sleep-and-continue versus return decision
depends on the attempt index). -/
inductive BodyOut where
  | ret (v : JVal) (conv : List Turn)
  | rate429

/-- Lines 79-105 for a single attempt: classify the transport outcome by
status code in source order (200, 404, 429, other).  Exceptions — raised by
`post` itself, by `response.json()`, or by the field accesses of the 200
handler — are returned as `.error` and dispatched by the caller, exactly
like the `try` block whose scope covers all of these lines. -/
def attemptBody (prompt : String) (conv : List Turn) (ar : AttemptResult) :
    Except PyErr BodyOut :=
  match ar with
  | .raised e => .error e
  | .resp status jsonResult text =>
    if status = 200 then
      match jsonResult with
      | .error e => .error e
      | .ok response_data =>
        match interpret200 prompt conv response_data with
        | .error e => .error e
        | .ok (v, c) => .ok (.ret v c)
    else if status = 404 then
      .ok (.ret (.str ("Error: Model " ++ squote ++ MODEL_NAME ++ squote ++
        " not found or not available. Please check the model name.")) conv)
    else if status = 429 then
      .ok .rate429
    else
      .ok (.ret (.str ("Error: API returned status code " ++ toString status ++
        ". Response: " ++ text)) conv)

/-- How the retry loop ended: a `return` with value and final history, an
exception escaping to the outer handler, or the loop running out of
indices without returning (the line 120 fallback). -/
inductive InnerRes where
  | ret (v : JVal) (conv : List Turn)
  | exc (e : PyErr)
  | fellThrough

/-- Result of the retry loop together with the chronological list of
`time.sleep` durations (in seconds) and the number of `requests.post`
invocations performed. -/
structure RunOut where
  res : InnerRes
  sleeps : List Nat
  calls : Nat

/-- Lines 77-111: `for attempt in range(MAX_RETRIES)` over the remaining
index list.  A `requests.exceptions.RequestException` is caught by the
inner handler: sleep `RATE_LIMIT_DELAY` and continue while attempts remain,
else return the network-error message (lines 107-111).  Any other exception
escapes the loop.  The 429 branch sleeps `RATE_LIMIT_DELAY * (attempt + 1)`
and continues while attempts remain, else returns the rate-limit message
(lines 99-103). -/
def runAttempts (prompt : String) (tr : Nat → AttemptResult) :
    List Nat → List Turn → List Nat → Nat → RunOut
  | [], _, sleeps, calls => ⟨.fellThrough, sleeps, calls⟩
  | attempt :: rest, conv, sleeps, calls =>
    match attemptBody prompt conv (tr attempt) with
    | .error (.requestException m) =>
      if attempt < MAX_RETRIES - 1 then
        runAttempts prompt tr rest conv (sleeps ++ [RATE_LIMIT_DELAY]) (calls + 1)
      else ⟨.ret (.str ("Network error: " ++ m)) conv, sleeps, calls + 1⟩
    | .error e => ⟨.exc e, sleeps, calls + 1⟩
    | .ok (.ret v c) => ⟨.ret v c, sleeps, calls + 1⟩
    | .ok .rate429 =>
      if attempt < MAX_RETRIES - 1 then
        runAttempts prompt tr rest conv (sleeps ++ [RATE_LIMIT_DELAY * (attempt + 1)]) (calls + 1)
      else ⟨.ret (.str "Rate limit exceeded. Please try again later.") conv, sleeps, calls + 1⟩

/-- Observable result of `get_response`: the returned Python value, the
conversation history afterwards, the sleeps performed and the number of
HTTP calls made. -/
structure GResult where
  retval : JVal
  conv : List Turn
  sleeps : List Nat
  calls : Nat

/-- Lines 113-118: the outer `except Exception` handler, which turns any
exception into a message string chosen by whether `str(e)` contains
`"API key"`. -/
def outerHandlerMessage (e : PyErr) : String :=
  if strIn "API key" e.pyStr then
    "Error: Please make sure you have set up your GOOGLE_API_KEY in the .env file"
  else "An error occurred: " ++ e.pyStr

/-- `get_response` (lines 60-120): run the retry loop over the attempt
indices `range(MAX_RETRIES)`; a `return` inside the loop is the result, an
escaping exception is converted by the outer handler (history unchanged),
and loop fall-through yields the line 120 fallback string. -/
def get_response (prompt : String) (conv : List Turn) (tr : Nat → AttemptResult) : GResult :=
  match runAttempts prompt tr (List.range MAX_RETRIES) conv [] 0 with
  | ⟨.ret v c, sleeps, calls⟩ => ⟨v, c, sleeps, calls⟩
  | ⟨.exc e, sleeps, calls⟩ => ⟨.str (outerHandlerMessage e), conv, sleeps, calls⟩
  | ⟨.fellThrough, sleeps, calls⟩ => ⟨.str "An unexpected error occurred", conv, sleeps, calls⟩

/-- A heap of Python list objects, for the reference-level model of
`Conversation`: cell `r` holds the list object at address `r`. -/
structure PyHeap where
  cells : List (List Turn)

/-- A `Conversation` object: its `self.history` attribute is a reference
into the heap. -/
structure ConvObj where
  histRef : Nat

/-- Read the list object at address `r`. -/
def PyHeap.deref (s : PyHeap) (r : Nat) : List Turn := s.cells.getD r []

/-- Overwrite the list object at address `r` in place. -/
def PyHeap.setCell (s : PyHeap) (r : Nat) (v : List Turn) : PyHeap := ⟨s.cells.set r v⟩

/-- Allocate a fresh list object, returning the new heap and its address. -/
def PyHeap.alloc (s : PyHeap) (v : List Turn) : PyHeap × Nat :=
  (⟨s.cells ++ [v]⟩, s.cells.length)

/-- `Conversation.__init__` (lines 27-28): `self.history = []` allocates a
fresh empty list and binds the attribute to it. -/
def convInit (s : PyHeap) : PyHeap × ConvObj :=
  let p := s.alloc []
  (p.1, ⟨p.2⟩)

/-- `Conversation.add_message` (lines 30-31) at the reference level:
`self.history.append(...)` mutates the list object in place, visible
through every alias of that object. -/
def convAddMessage (s : PyHeap) (c : ConvObj) (role : String) (content : JVal) : PyHeap :=
  s.setCell c.histRef (s.deref c.histRef ++ [⟨role, content⟩])

/-- `Conversation.get_messages` (lines 33-34) at the reference level:
`return self.history` returns the reference to the live list object, not a
copy. -/
def convGetMessages (c : ConvObj) : Nat := c.histRef

/-- `Conversation.clear` (lines 36-37) at the reference level:
`self.history = []` allocates a fresh empty list and rebinds the attribute;
the previous list object is left untouched. -/
def convClear (s : PyHeap) (_c : ConvObj) : PyHeap × ConvObj :=
  let p := s.alloc []
  (p.1, ⟨p.2⟩)

/-- Python whitespace as stripped by `str.strip()`. -/
def pyWhitespaceChar (c : Char) : Bool :=
  c = ' ' || c = '\t' || c = '\n' || c = '\r' || c = '\x0b' || c = '\x0c'

/-- Python `str.strip()`: drop whitespace from both ends. -/
def pyStrip (s : List Char) : List Char :=
  ((s.dropWhile pyWhitespaceChar).reverse.dropWhile pyWhitespaceChar).reverse

/-- Python `str.lower()` restricted to the characters compared against the
command words of the session loop. -/
def pyLower (s : List Char) : List Char := s.map Char.toLower

/-- What one iteration of the session loop (lines 151-176) decides to do
with a raw input line, up to the point where `get_response` would be
invoked. -/
inductive StepAction where
  | skippedEmpty
  | quitLoop
  | clearedHistory
  | rejectedTooLong
  | sentPrompt (prompt : List Char)
deriving DecidableEq

/-- Lines 154-176 of `main`: `user_input = input().strip()`, the empty-line
skip, the `quit`/`exit` commands, the `clear` command, the
`len(user_input) > MAX_TOKENS` rejection, and otherwise the call to
`get_response` with the stripped line. -/
def mainStep (raw : List Char) : StepAction :=
  if pyStrip raw = [] then .skippedEmpty
  else if pyLower (pyStrip raw) = "quit".toList ∨ pyLower (pyStrip raw) = "exit".toList then
    .quitLoop
  else if pyLower (pyStrip raw) = "clear".toList then .clearedHistory
  else if (pyStrip raw).length > MAX_TOKENS then .rejectedTooLong
  else .sentPrompt (pyStrip raw)

/-- Number of HTTP calls made while handling one raw input line:
`get_response` is invoked exactly when `mainStep` reaches `sentPrompt`. -/
def stepHttpCalls (raw : List Char) (conv : List Turn) (tr : Nat → AttemptResult) : Nat :=
  match mainStep raw with
  | .sentPrompt p => (get_response (String.mk p) conv tr).calls
  | _ => 0

/-- Alternation of roles user, model, user, model, ... over a stored
history. -/
def alternatesUM : List Turn → Bool
  | [] => true
  | [_] => false
  | u :: m :: rest => u.role == "user" && m.role == "model" && alternatesUM rest

/-- The call of `get_response` on `conv` took the success path: the history
afterwards is the old history extended by the user turn and the model turn
holding the returned text. -/
def succAt (p : String) (tr : Nat → AttemptResult) (conv : List Turn) : Prop :=
  (get_response p conv tr).conv =
    conv ++ [⟨"user", .str p⟩, ⟨"model", (get_response p conv tr).retval⟩]

/-- A sequence of exchanges, each of which takes the success path, driving
the history from the first state to the last. -/
inductive ChatSucceeds : List Turn → List (String × (Nat → AttemptResult)) → List Turn → Prop where
  | nil (conv : List Turn) : ChatSucceeds conv [] conv
  | cons {p : String} {tr : Nat → AttemptResult} {conv final : List Turn}
      {rest : List (String × (Nat → AttemptResult))} :
      succAt p tr conv →
      ChatSucceeds ((get_response p conv tr).conv) rest final →
      ChatSucceeds conv ((p, tr) :: rest) final

/-- The safety check of lines 85-87 falls through to the candidates branch:
either `promptFeedback` is absent, or it is a dict whose `blockReason` is
missing or falsy. -/
def fallsThroughSafety (fields : List (String × JVal)) : Prop :=
  lookupField fields "promptFeedback" = none ∨
  ∃ pfF, lookupField fields "promptFeedback" = some (.obj pfF) ∧
    jTruthy ((lookupField pfF "blockReason").getD .null) = false

/-- A well-formed 200 body with one candidate whose first part holds the
given text value. -/
def candidatesBody (t : JVal) : JVal :=
  .obj [("candidates", .arr [.obj [("content", .obj [("parts", .arr [.obj [("text", t)]])])]])]

/-- Transport that always answers 200 with a single-candidate body whose
text is the string `"hello"`. -/
def trOk : Nat → AttemptResult := fun _ => .resp 200 (.ok (candidatesBody (.str "hello"))) ""

/-- Transport that always answers 404. -/
def tr404 : Nat → AttemptResult := fun _ => .resp 404 (.ok .null) ""

/-- Transport that always answers 429. -/
def tr429 : Nat → AttemptResult := fun _ => .resp 429 (.ok .null) ""

/-- Transport that answers 429 on the first attempt and a successful 200 on
every later attempt. -/
def tr429then200 : Nat → AttemptResult := fun n =>
  if n = 0 then .resp 429 (.ok .null) "" else .resp 200 (.ok (candidatesBody (.str "hello"))) ""

/-- Transport answering 200 with a body blocked for safety. -/
def trSafety : Nat → AttemptResult := fun _ =>
  .resp 200 (.ok (.obj [("promptFeedback", .obj [("blockReason", .str "SAFETY")])])) ""

/-- Transport answering 200 with one candidate that has no `content`
field. -/
def trNoContent : Nat → AttemptResult := fun _ =>
  .resp 200 (.ok (.obj [("candidates", .arr [.obj []])])) ""

/-- Transport answering 200 with an empty `candidates` list. -/
def trEmptyCand : Nat → AttemptResult := fun _ =>
  .resp 200 (.ok (.obj [("candidates", .arr [])])) ""

/-- Transport answering 200 with a body whose first part text is the JSON
number 42 rather than a string. -/
def trNumText : Nat → AttemptResult := fun _ =>
  .resp 200 (.ok (candidatesBody (.num 42))) ""

/-- A raw input line of `MAX_TOKENS + 1` spaces followed by `hi`: longer
than `MAX_TOKENS` characters, but stripped to length 2 by the session
loop. -/
def longSpacesInput : List Char := List.replicate (MAX_TOKENS + 1) ' ' ++ ['h', 'i']

/-- A raw input line of `MAX_TOKENS + 1` letters: still longer than
`MAX_TOKENS` after stripping. -/
def longLettersInput : List Char := List.replicate (MAX_TOKENS + 1) 'a'

theorem getD_concat_self {α : Type} (l : List α) (v d : α) : (l ++ [v]).getD l.length d = v := by
  induction l with
  | nil => rfl
  | cons _ _ _ => simp

theorem getD_append_left {α : Type} (l l' : List α) (i : Nat) (d : α) (h : i < l.length) :
    (l ++ l').getD i d = l.getD i d := by
  induction l generalizing i with
  | nil => simp at h
  | cons a t ih =>
    cases i with
    | zero => rfl
    | succ n => simpa using ih n (by simpa using h)

theorem getD_set_self {α : Type} (l : List α) (i : Nat) (v d : α) (h : i < l.length) :
    (l.set i v).getD i d = v := by
  induction l generalizing i with
  | nil => simp at h
  | cons a t ih =>
    cases i with
    | zero => rfl
    | succ n => simpa using ih n (by simpa using h)

theorem getD_set_ne {α : Type} (l : List α) (i j : Nat) (v d : α) (h : i ≠ j) :
    (l.set i v).getD j d = l.getD j d := by
  induction l generalizing i j with
  | nil => rfl
  | cons a t ih =>
    cases i with
    | zero =>
      cases j with
      | zero => exact absurd rfl h
      | succ n => rfl
    | succ m =>
      cases j with
      | zero => rfl
      | succ n => simpa using ih m n (by omega)

/-- C1: `create_message_content` maps each stored turn of the history, in
order, to a `{role, parts:[{text}]}` entry and appends exactly one trailing
entry with role `user` holding the new text, so the `contents` list has
length `len(history) + 1` with the image of the history leading.  The
builder reads the store only through `get_messages` and is a pure function
of its value, so it has no side effect on the store. -/
theorem C1_request_payload (history : List Turn) (t : String) :
    payloadContents (create_message_content history t) =
      history.map (fun msg => newEntry msg.role msg.text) ++ [newEntry "user" (.str t)] ∧
    (payloadContents (create_message_content history t)).length = history.length + 1 := by
  constructor
  · rfl
  · show (history.map (fun msg => newEntry msg.role msg.text) ++
      [newEntry "user" (.str t)]).length = history.length + 1
    simp

/-- C9: `clear()` resets the history to the empty sequence — a `clear`
followed by `snapshot` dereferences to the empty list regardless of the
prior content of the store — and it is idempotent: clearing again leaves
the same observable empty state. -/
theorem C9_clear_resets (s : PyHeap) (c : ConvObj) :
    (convClear s c).1.deref (convGetMessages (convClear s c).2) = [] ∧
    (convClear (convClear s c).1 (convClear s c).2).1.deref
      (convGetMessages (convClear (convClear s c).1 (convClear s c).2).2) = [] :=
  ⟨getD_concat_self s.cells [] [], getD_concat_self (s.cells ++ [[]]) [] []⟩

/-- C7 counterexample: `get_messages` returns the live list object, so a
snapshot taken from an empty store shows the appended turn after a
subsequent `add_message`; the snapshot is not isolated from future
mutations. -/
theorem C7_counterexample :
    (convAddMessage ⟨[[]]⟩ ⟨0⟩ "user" (.str "hi")).deref (convGetMessages ⟨0⟩) =
      [⟨"user", .str "hi"⟩] ∧
    PyHeap.deref ⟨[[]]⟩ (convGetMessages ⟨0⟩) = [] ∧
    (convAddMessage ⟨[[]]⟩ ⟨0⟩ "user" (.str "hi")).deref (convGetMessages ⟨0⟩) ≠
      PyHeap.deref ⟨[[]]⟩ (convGetMessages ⟨0⟩) := by
  refine ⟨rfl, rfl, fun hEq => ?_⟩
  have h1 : (convAddMessage ⟨[[]]⟩ ⟨0⟩ "user" (.str "hi")).deref (convGetMessages ⟨0⟩) =
      [(⟨"user", .str "hi"⟩ : Turn)] := rfl
  have h2 : PyHeap.deref ⟨[[]]⟩ (convGetMessages ⟨0⟩) = ([] : List Turn) := rfl
  rw [h1, h2] at hEq
  exact List.cons_ne_nil _ _ hEq

/-- C7 amended: the sequence returned by `get_messages` is an aliased
reference to the live history list, not an isolated copy.  A previously
taken snapshot observes a subsequent `add_message` (the appended turn
becomes visible through it); `clear`, by contrast, rebinds the store to a
fresh empty list, so the old snapshot keeps exactly the turns it held at
the moment of the clear, the cleared store snapshots to empty, and appends
made after the clear are not visible through the old snapshot. -/
theorem C7_amended_alias :
    (∀ (s : PyHeap) (c : ConvObj) (role : String) (t : JVal),
        c.histRef < s.cells.length →
        (convAddMessage s c role t).deref (convGetMessages c) =
          s.deref (convGetMessages c) ++ [⟨role, t⟩]) ∧
    (∀ (s : PyHeap) (c : ConvObj),
        c.histRef < s.cells.length →
        (convClear s c).1.deref (convGetMessages c) = s.deref (convGetMessages c) ∧
        (convClear s c).1.deref (convGetMessages (convClear s c).2) = []) ∧
    (∀ (s : PyHeap) (c : ConvObj) (role : String) (t : JVal),
        c.histRef < s.cells.length →
        (convAddMessage (convClear s c).1 (convClear s c).2 role t).deref
          (convGetMessages c) = s.deref (convGetMessages c)) := by
  refine ⟨?_, ?_, ?_⟩
  · intro s c role t h
    exact getD_set_self s.cells c.histRef (s.cells.getD c.histRef [] ++ [⟨role, t⟩]) [] h
  · intro s c h
    exact ⟨getD_append_left s.cells [[]] c.histRef [] h, getD_concat_self s.cells [] []⟩
  · intro s c role t h
    have hne : s.cells.length ≠ c.histRef := by omega
    show ((s.cells ++ [[]]).set s.cells.length
        ((s.cells ++ [[]]).getD s.cells.length [] ++ [(⟨role, t⟩ : Turn)])).getD c.histRef [] =
      s.cells.getD c.histRef []
    rw [getD_set_ne _ _ _ _ _ hne]
    exact getD_append_left s.cells [[]] c.histRef [] h

/-- C7 witness: the amended aliasing statement at a concrete store — after
taking a snapshot of the singleton heap and appending one turn, the
snapshot dereferences to the appended turn. -/
theorem C7_amended_witness :
    (convAddMessage ⟨[[]]⟩ ⟨0⟩ "user" (.str "x")).deref (convGetMessages ⟨0⟩) =
      PyHeap.deref ⟨[[]]⟩ (convGetMessages ⟨0⟩) ++ [⟨"user", .str "x"⟩] :=
  C7_amended_alias.1 ⟨[[]]⟩ ⟨0⟩ "user" (.str "x") (by decide)

theorem range3 : List.range MAX_RETRIES = [0, 1, 2] := rfl

theorem runAttempts_cons_ret (p : String) (tr : Nat → AttemptResult) (a : Nat) (rest : List Nat)
    (conv : List Turn) (sleeps : List Nat) (calls : Nat) (v : JVal) (c : List Turn)
    (hb : attemptBody p conv (tr a) = .ok (.ret v c)) :
    runAttempts p tr (a :: rest) conv sleeps calls = ⟨.ret v c, sleeps, calls + 1⟩ := by
  unfold runAttempts
  rw [hb]

theorem runAttempts_rate_retry (p : String) (tr : Nat → AttemptResult) (a : Nat) (rest : List Nat)
    (conv : List Turn) (sleeps : List Nat) (calls : Nat)
    (hb : attemptBody p conv (tr a) = .ok .rate429) (hlt : a < MAX_RETRIES - 1) :
    runAttempts p tr (a :: rest) conv sleeps calls =
      runAttempts p tr rest conv (sleeps ++ [RATE_LIMIT_DELAY * (a + 1)]) (calls + 1) := by
  unfold runAttempts
  rw [hb]
  simp only [hlt, if_true, reduceIte]
  cases rest <;> rfl

theorem runAttempts_rate_last (p : String) (tr : Nat → AttemptResult) (a : Nat) (rest : List Nat)
    (conv : List Turn) (sleeps : List Nat) (calls : Nat)
    (hb : attemptBody p conv (tr a) = .ok .rate429) (hge : ¬ a < MAX_RETRIES - 1) :
    runAttempts p tr (a :: rest) conv sleeps calls =
      ⟨.ret (.str "Rate limit exceeded. Please try again later.") conv, sleeps, calls + 1⟩ := by
  unfold runAttempts
  rw [hb]
  simp [hge]

theorem runAttempts_reqexc_retry (p : String) (tr : Nat → AttemptResult) (a : Nat)
    (rest : List Nat) (conv : List Turn) (sleeps : List Nat) (calls : Nat) (m : String)
    (hb : attemptBody p conv (tr a) = .error (.requestException m)) (hlt : a < MAX_RETRIES - 1) :
    runAttempts p tr (a :: rest) conv sleeps calls =
      runAttempts p tr rest conv (sleeps ++ [RATE_LIMIT_DELAY]) (calls + 1) := by
  unfold runAttempts
  rw [hb]
  simp only [hlt, if_true, reduceIte]
  cases rest <;> rfl

theorem runAttempts_reqexc_last (p : String) (tr : Nat → AttemptResult) (a : Nat)
    (rest : List Nat) (conv : List Turn) (sleeps : List Nat) (calls : Nat) (m : String)
    (hb : attemptBody p conv (tr a) = .error (.requestException m)) (hge : ¬ a < MAX_RETRIES - 1) :
    runAttempts p tr (a :: rest) conv sleeps calls =
      ⟨.ret (.str ("Network error: " ++ m)) conv, sleeps, calls + 1⟩ := by
  unfold runAttempts
  rw [hb]
  simp [hge]

theorem runAttempts_cons_exc (p : String) (tr : Nat → AttemptResult) (a : Nat) (rest : List Nat)
    (conv : List Turn) (sleeps : List Nat) (calls : Nat) (e : PyErr)
    (hb : attemptBody p conv (tr a) = .error e)
    (hne : ∀ m, e ≠ PyErr.requestException m) :
    runAttempts p tr (a :: rest) conv sleeps calls = ⟨.exc e, sleeps, calls + 1⟩ := by
  cases e with
  | requestException m => exact absurd rfl (hne m)
  | keyError k => unfold runAttempts; rw [hb]
  | typeError m => unfold runAttempts; rw [hb]
  | indexError m => unfold runAttempts; rw [hb]
  | attributeError m => unfold runAttempts; rw [hb]
  | valueError m => unfold runAttempts; rw [hb]

theorem get_response_of_ret (p : String) (conv : List Turn) (tr : Nat → AttemptResult)
    (v : JVal) (c : List Turn) (sleeps : List Nat) (calls : Nat)
    (h : runAttempts p tr (List.range MAX_RETRIES) conv [] 0 = ⟨.ret v c, sleeps, calls⟩) :
    get_response p conv tr = ⟨v, c, sleeps, calls⟩ := by
  unfold get_response
  rw [h]

theorem get_response_of_exc (p : String) (conv : List Turn) (tr : Nat → AttemptResult)
    (e : PyErr) (sleeps : List Nat) (calls : Nat)
    (h : runAttempts p tr (List.range MAX_RETRIES) conv [] 0 = ⟨.exc e, sleeps, calls⟩) :
    get_response p conv tr = ⟨.str (outerHandlerMessage e), conv, sleeps, calls⟩ := by
  unfold get_response
  rw [h]

theorem attemptBody_404 (p : String) (conv : List Turn) (jr : Except PyErr JVal) (t : String) :
    attemptBody p conv (.resp 404 jr t) =
      .ok (.ret (.str ("Error: Model " ++ squote ++ MODEL_NAME ++ squote ++
        " not found or not available. Please check the model name.")) conv) := rfl

theorem attemptBody_429 (p : String) (conv : List Turn) (jr : Except PyErr JVal) (t : String) :
    attemptBody p conv (.resp 429 jr t) = .ok .rate429 := rfl

theorem attemptBody_raised (p : String) (conv : List Turn) (e : PyErr) :
    attemptBody p conv (.raised e) = .error e := rfl

theorem attemptBody_200_json_err (p : String) (conv : List Turn) (e : PyErr) (t : String) :
    attemptBody p conv (.resp 200 (.error e) t) = .error e := rfl

theorem attemptBody_200_ok (p : String) (conv : List Turn) (j : JVal) (t : String)
    (v : JVal) (c : List Turn) (hi : interpret200 p conv j = .ok (v, c)) :
    attemptBody p conv (.resp 200 (.ok j) t) = .ok (.ret v c) := by
  simp [attemptBody, hi]

theorem attemptBody_200_err (p : String) (conv : List Turn) (j : JVal) (t : String)
    (e : PyErr) (hi : interpret200 p conv j = .error e) :
    attemptBody p conv (.resp 200 (.ok j) t) = .error e := by
  simp [attemptBody, hi]

theorem attemptBody_200_not_rate (p : String) (conv : List Turn) (jr : Except PyErr JVal)
    (t : String) : attemptBody p conv (.resp 200 jr t) ≠ .ok .rate429 := by
  cases jr with
  | error e => rw [attemptBody_200_json_err]; intro h; cases h
  | ok j =>
    cases hi : interpret200 p conv j with
    | error e => rw [attemptBody_200_err p conv j t e hi]; intro h; cases h
    | ok vc =>
      obtain ⟨v, c⟩ := vc
      rw [attemptBody_200_ok p conv j t v c hi]
      intro h
      injection h with h'
      cases h'

theorem get_response_first_ret (p : String) (conv : List Turn) (tr : Nat → AttemptResult)
    (v : JVal) (c : List Turn) (hb : attemptBody p conv (tr 0) = .ok (.ret v c)) :
    get_response p conv tr = ⟨v, c, [], 1⟩ := by
  apply get_response_of_ret
  rw [range3]
  exact runAttempts_cons_ret p tr 0 [1, 2] conv [] 0 v c hb

theorem get_response_first_exc (p : String) (conv : List Turn) (tr : Nat → AttemptResult)
    (e : PyErr) (hb : attemptBody p conv (tr 0) = .error e)
    (hne : ∀ m, e ≠ PyErr.requestException m) :
    get_response p conv tr = ⟨.str (outerHandlerMessage e), conv, [], 1⟩ := by
  apply get_response_of_exc
  rw [range3]
  exact runAttempts_cons_exc p tr 0 [1, 2] conv [] 0 e hb hne

/-- C4: a 404 on the first attempt is terminal — `get_response` returns the
model-not-found message after exactly one HTTP call, with no sleep, no
retry, and the history unchanged. -/
theorem C4_404_terminal (p : String) (conv : List Turn) (tr : Nat → AttemptResult)
    (jr : Except PyErr JVal) (t : String) (h : tr 0 = .resp 404 jr t) :
    get_response p conv tr =
      ⟨.str ("Error: Model " ++ squote ++ MODEL_NAME ++ squote ++
        " not found or not available. Please check the model name."), conv, [], 1⟩ := by
  apply get_response_first_ret
  rw [h]
  exact attemptBody_404 p conv jr t

/-- C4 witness: the 404 theorem at a concrete transport that always
answers 404. -/
theorem C4_witness :
    get_response "hi" [] tr404 =
      ⟨.str ("Error: Model " ++ squote ++ MODEL_NAME ++ squote ++
        " not found or not available. Please check the model name."), [], [], 1⟩ :=
  C4_404_terminal "hi" [] tr404 (.ok .null) "" rfl

/-- C3: the 429 retry policy.  On a 429 at attempt index `a` with attempts
remaining, the loop sleeps `RATE_LIMIT_DELAY * (a + 1)` seconds and retries
on the remaining indices; with attempts exhausted it returns the rate-limit
message.  Three consecutive 429s yield the rate-limit outcome after exactly
two sleeps (of `RATE_LIMIT_DELAY * 1` and `RATE_LIMIT_DELAY * 2`) and three
HTTP calls; a 429 followed by a 200 on the second attempt yields the
outcome (value and history) of that 200 response after exactly one sleep of
`RATE_LIMIT_DELAY * 1` and two HTTP calls.  The last part assumes the
handling of the 200 body does not itself raise a
`requests.exceptions.RequestException` (only then is a 200 terminal). -/
theorem C3_429_retry_policy :
    (∀ (p : String) (tr : Nat → AttemptResult) (a : Nat) (rest : List Nat) (conv : List Turn)
        (sleeps : List Nat) (calls : Nat) (jr : Except PyErr JVal) (t : String),
        tr a = .resp 429 jr t → a < MAX_RETRIES - 1 →
        runAttempts p tr (a :: rest) conv sleeps calls =
          runAttempts p tr rest conv (sleeps ++ [RATE_LIMIT_DELAY * (a + 1)]) (calls + 1)) ∧
    (∀ (p : String) (tr : Nat → AttemptResult) (a : Nat) (rest : List Nat) (conv : List Turn)
        (sleeps : List Nat) (calls : Nat) (jr : Except PyErr JVal) (t : String),
        tr a = .resp 429 jr t → ¬ a < MAX_RETRIES - 1 →
        runAttempts p tr (a :: rest) conv sleeps calls =
          ⟨.ret (.str "Rate limit exceeded. Please try again later.") conv, sleeps, calls + 1⟩) ∧
    (∀ (p : String) (conv : List Turn) (tr : Nat → AttemptResult)
        (jr0 jr1 jr2 : Except PyErr JVal) (t0 t1 t2 : String),
        tr 0 = .resp 429 jr0 t0 → tr 1 = .resp 429 jr1 t1 → tr 2 = .resp 429 jr2 t2 →
        get_response p conv tr =
          ⟨.str "Rate limit exceeded. Please try again later.", conv,
            [RATE_LIMIT_DELAY * 1, RATE_LIMIT_DELAY * 2], 3⟩) ∧
    (∀ (p : String) (conv : List Turn) (tr : Nat → AttemptResult)
        (jr0 jr1 : Except PyErr JVal) (t0 t1 : String),
        tr 0 = .resp 429 jr0 t0 → tr 1 = .resp 200 jr1 t1 →
        (∀ m, attemptBody p conv (tr 1) ≠ .error (.requestException m)) →
        (get_response p conv tr).retval = (get_response p conv (fun _ => tr 1)).retval ∧
        (get_response p conv tr).conv = (get_response p conv (fun _ => tr 1)).conv ∧
        (get_response p conv tr).sleeps = [RATE_LIMIT_DELAY * 1] ∧
        (get_response p conv tr).calls = 2) := by
  refine ⟨?_, ?_, ?_, ?_⟩
  · intro p tr a rest conv sleeps calls jr t h hlt
    exact runAttempts_rate_retry p tr a rest conv sleeps calls
      (by rw [h]; exact attemptBody_429 p conv jr t) hlt
  · intro p tr a rest conv sleeps calls jr t h hge
    exact runAttempts_rate_last p tr a rest conv sleeps calls
      (by rw [h]; exact attemptBody_429 p conv jr t) hge
  · intro p conv tr jr0 jr1 jr2 t0 t1 t2 h0 h1 h2
    apply get_response_of_ret
    rw [range3]
    rw [runAttempts_rate_retry p tr 0 [1, 2] conv [] 0
      (by rw [h0]; exact attemptBody_429 p conv jr0 t0) (by decide)]
    rw [runAttempts_rate_retry p tr 1 [2] conv ([] ++ [RATE_LIMIT_DELAY * (0 + 1)]) (0 + 1)
      (by rw [h1]; exact attemptBody_429 p conv jr1 t1) (by decide)]
    rw [runAttempts_rate_last p tr 2 []
      conv (([] ++ [RATE_LIMIT_DELAY * (0 + 1)]) ++ [RATE_LIMIT_DELAY * (1 + 1)]) ((0 + 1) + 1)
      (by rw [h2]; exact attemptBody_429 p conv jr2 t2) (by decide)]
    rfl
  · intro p conv tr jr0 jr1 t0 t1 h0 h1 hne
    have s0 : runAttempts p tr [0, 1, 2] conv [] 0 =
        runAttempts p tr [1, 2] conv ([] ++ [RATE_LIMIT_DELAY * (0 + 1)]) (0 + 1) :=
      runAttempts_rate_retry p tr 0 [1, 2] conv [] 0
        (by rw [h0]; exact attemptBody_429 p conv jr0 t0) (by decide)
    cases hb : attemptBody p conv (tr 1) with
    | error e =>
      have hne' : ∀ m, e ≠ PyErr.requestException m := fun m hm => hne m (hm ▸ hb)
      have l1 : get_response p conv tr =
          ⟨.str (outerHandlerMessage e), conv, [] ++ [RATE_LIMIT_DELAY * (0 + 1)], (0 + 1) + 1⟩ := by
        apply get_response_of_exc
        rw [range3, s0]
        exact runAttempts_cons_exc p tr 1 [2] conv ([] ++ [RATE_LIMIT_DELAY * (0 + 1)]) (0 + 1)
          e hb hne'
      have l2 : get_response p conv (fun _ => tr 1) =
          ⟨.str (outerHandlerMessage e), conv, [], 1⟩ :=
        get_response_first_exc p conv (fun _ => tr 1) e hb hne'
      rw [l1, l2]
      exact ⟨rfl, rfl, rfl, rfl⟩
    | ok bo =>
      cases bo with
      | ret v c =>
        have l1 : get_response p conv tr =
            ⟨v, c, [] ++ [RATE_LIMIT_DELAY * (0 + 1)], (0 + 1) + 1⟩ := by
          apply get_response_of_ret
          rw [range3, s0]
          exact runAttempts_cons_ret p tr 1 [2] conv ([] ++ [RATE_LIMIT_DELAY * (0 + 1)]) (0 + 1)
            v c hb
        have l2 : get_response p conv (fun _ => tr 1) = ⟨v, c, [], 1⟩ :=
          get_response_first_ret p conv (fun _ => tr 1) v c hb
        rw [l1, l2]
        exact ⟨rfl, rfl, rfl, rfl⟩
      | rate429 =>
        rw [h1] at hb
        exact absurd hb (attemptBody_200_not_rate p conv jr1 t1)

/-- C3 witness: three consecutive 429s at a concrete transport yield the
rate-limit message after sleeps of one and two seconds and three calls, and
a concrete 429-then-200 run performs one one-second sleep, two calls, and
returns the 200 outcome. -/
theorem C3_witness :
    get_response "hi" [] tr429 =
      ⟨.str "Rate limit exceeded. Please try again later.", [],
        [RATE_LIMIT_DELAY * 1, RATE_LIMIT_DELAY * 2], 3⟩ ∧
    (get_response "hi" [] tr429then200).retval =
      (get_response "hi" [] (fun _ => tr429then200 1)).retval ∧
    (get_response "hi" [] tr429then200).sleeps = [RATE_LIMIT_DELAY * 1] ∧
    (get_response "hi" [] tr429then200).calls = 2 := by
  have h4 := C3_429_retry_policy.2.2.2 "hi" [] tr429then200 (.ok .null)
    (.ok (candidatesBody (.str "hello"))) "" "" rfl rfl
    (by
      intro m hm
      rw [show attemptBody "hi" [] (tr429then200 1) =
        Except.ok (BodyOut.ret (JVal.str "hello")
          [⟨"user", JVal.str "hi"⟩, ⟨"model", JVal.str "hello"⟩]) from rfl] at hm
      cases hm)
  exact ⟨C3_429_retry_policy.2.2.1 "hi" [] tr429 (.ok .null) (.ok .null) (.ok .null) "" "" ""
    rfl rfl rfl, h4.1, h4.2.2.1, h4.2.2.2⟩

/-- C5: a 200 response whose parsed body has a `promptFeedback` object with
a non-empty `blockReason` string yields the safety-block message after one
HTTP call with no sleep, and the conversation history is left completely
unchanged. -/
theorem C5_safety_blocked (p : String) (conv : List Turn) (tr : Nat → AttemptResult)
    (fields pfF : List (String × JVal)) (s t : String)
    (h0 : tr 0 = .resp 200 (.ok (.obj fields)) t)
    (hpf : lookupField fields "promptFeedback" = some (.obj pfF))
    (hbr : lookupField pfF "blockReason" = some (.str s))
    (hs : s ≠ "") :
    get_response p conv tr =
      ⟨.str "I apologize, but I cannot respond to that prompt due to safety concerns.",
        conv, [], 1⟩ := by
  apply get_response_first_ret
  rw [h0]
  apply attemptBody_200_ok
  simp [interpret200, jContains, jGet, jGetMethod, jTruthy, hpf, hbr, hs]

/-- C5 witness: the safety-block theorem at a concrete transport whose 200
body carries `promptFeedback.blockReason = "SAFETY"`. -/
theorem C5_witness :
    get_response "hi" [] trSafety =
      ⟨.str "I apologize, but I cannot respond to that prompt due to safety concerns.",
        [], [], 1⟩ :=
  C5_safety_blocked "hi" [] trSafety [("promptFeedback", .obj [("blockReason", .str "SAFETY")])]
    [("blockReason", .str "SAFETY")] "SAFETY" "" rfl rfl rfl (by decide)

theorem interpret200_no_block (p : String) (conv : List Turn) (fields : List (String × JVal))
    (h : fallsThroughSafety fields) :
    interpret200 p conv (.obj fields) = interpretCandidates p conv (.obj fields) := by
  cases h with
  | inl hnone => simp [interpret200, jContains, hnone]
  | inr hex =>
    obtain ⟨pfF, hpf, hfalse⟩ := hex
    simp [interpret200, jContains, jGet, jGetMethod, hpf, hfalse]

/-- C6 counterexample: a 200 body whose first candidate lacks the `content`
field does not yield the Empty outcome.  The subscript
`candidates[0]["content"]` raises a `KeyError` that the 200 handler does
not catch; it reaches the outer handler, which returns the generic error
message, not `"No response generated"`.  The history is still unchanged. -/
theorem C6_counterexample :
    (get_response "q" [] trNoContent).retval =
      .str ("An error occurred: " ++ squote ++ "content" ++ squote) ∧
    (get_response "q" [] trNoContent).retval ≠ .str "No response generated" ∧
    (get_response "q" [] trNoContent).conv = [] := by
  refine ⟨rfl, ?_, rfl⟩
  intro h
  rw [show (get_response "q" [] trNoContent).retval =
    JVal.str ("An error occurred: " ++ squote ++ "content" ++ squote) from rfl] at h
  injection h with h'
  exact absurd h' (by decide)

/-- C6 amended: for a 200 response that falls through the safety check, the
outcome is Empty (`"No response generated"`, history unchanged, one call,
no sleep) when the `candidates` key is absent, when the candidates list is
empty, or when the first candidate has a `content` object whose `parts`
key is absent or holds an empty list; but when the first candidate lacks
the `content` field entirely, the `KeyError` escapes to the outer handler
and the outcome is the generic error string — still with the history
unchanged, one call and no sleep — not Empty. -/
theorem C6_empty_outcomes :
    (∀ (p : String) (conv : List Turn) (tr : Nat → AttemptResult) (t : String)
        (fields : List (String × JVal)),
        tr 0 = .resp 200 (.ok (.obj fields)) t → fallsThroughSafety fields →
        lookupField fields "candidates" = none →
        get_response p conv tr = ⟨.str "No response generated", conv, [], 1⟩) ∧
    (∀ (p : String) (conv : List Turn) (tr : Nat → AttemptResult) (t : String)
        (fields : List (String × JVal)),
        tr 0 = .resp 200 (.ok (.obj fields)) t → fallsThroughSafety fields →
        lookupField fields "candidates" = some (.arr []) →
        get_response p conv tr = ⟨.str "No response generated", conv, [], 1⟩) ∧
    (∀ (p : String) (conv : List Turn) (tr : Nat → AttemptResult) (t : String)
        (fields c0F ccF : List (String × JVal)) (rest : List JVal),
        tr 0 = .resp 200 (.ok (.obj fields)) t → fallsThroughSafety fields →
        lookupField fields "candidates" = some (.arr (.obj c0F :: rest)) →
        lookupField c0F "content" = some (.obj ccF) →
        (lookupField ccF "parts" = none ∨ lookupField ccF "parts" = some (.arr [])) →
        get_response p conv tr = ⟨.str "No response generated", conv, [], 1⟩) ∧
    (∀ (p : String) (conv : List Turn) (tr : Nat → AttemptResult) (t : String)
        (fields c0F : List (String × JVal)) (rest : List JVal),
        tr 0 = .resp 200 (.ok (.obj fields)) t → fallsThroughSafety fields →
        lookupField fields "candidates" = some (.arr (.obj c0F :: rest)) →
        lookupField c0F "content" = none →
        get_response p conv tr =
          ⟨.str ("An error occurred: " ++ squote ++ "content" ++ squote), conv, [], 1⟩) := by
  refine ⟨?_, ?_, ?_, ?_⟩
  · intro p conv tr t fields h0 hsafe hc
    apply get_response_first_ret
    rw [h0]
    apply attemptBody_200_ok
    rw [interpret200_no_block p conv fields hsafe]
    simp [interpretCandidates, jContains, hc]
  · intro p conv tr t fields h0 hsafe hc
    apply get_response_first_ret
    rw [h0]
    apply attemptBody_200_ok
    rw [interpret200_no_block p conv fields hsafe]
    simp [interpretCandidates, jContains, jGet, jLen, hc]
  · intro p conv tr t fields c0F ccF rest h0 hsafe hc hcontent hparts
    apply get_response_first_ret
    rw [h0]
    apply attemptBody_200_ok
    rw [interpret200_no_block p conv fields hsafe]
    cases hparts with
    | inl hnone => simp [interpretCandidates, jContains, jGet, jLen, jIndex, hc, hcontent, hnone]
    | inr hempty => simp [interpretCandidates, jContains, jGet, jLen, jIndex, hc, hcontent, hempty]
  · intro p conv tr t fields c0F rest h0 hsafe hc hcontent
    have hb : attemptBody p conv (tr 0) = .error (.keyError "content") := by
      rw [h0]
      apply attemptBody_200_err
      rw [interpret200_no_block p conv fields hsafe]
      simp [interpretCandidates, jContains, jGet, jLen, jIndex, hc, hcontent]
    have hne : ∀ m, PyErr.keyError "content" ≠ PyErr.requestException m := by
      intro m hm
      cases hm
    rw [get_response_first_exc p conv tr (.keyError "content") hb hne]
    rfl

/-- C6 witness: the Empty outcome of the amended statement at a concrete
transport whose 200 body has an empty candidates list. -/
theorem C6_witness :
    get_response "q" [] trEmptyCand = ⟨.str "No response generated", [], [], 1⟩ :=
  C6_empty_outcomes.2.1 "q" [] trEmptyCand "" [("candidates", .arr [])] rfl (Or.inl rfl) rfl

theorem interpretCandidates_cases (p : String) (conv : List Turn) (j : JVal) (v : JVal)
    (c : List Turn) (h : interpretCandidates p conv j = .ok (v, c)) :
    (c = conv ∧ ∃ s, v = .str s) ∨
    c = conv ++ [⟨"user", .str p⟩, ⟨"model", v⟩] := by
  unfold interpretCandidates at h
  repeat' split at h
  all_goals cases h
  all_goals try exact Or.inl ⟨rfl, ⟨_, rfl⟩⟩
  all_goals right
  all_goals simp [Conversation.add_message]

theorem interpret200_cases (p : String) (conv : List Turn) (j : JVal) (v : JVal)
    (c : List Turn) (h : interpret200 p conv j = .ok (v, c)) :
    (c = conv ∧ ∃ s, v = .str s) ∨
    c = conv ++ [⟨"user", .str p⟩, ⟨"model", v⟩] := by
  unfold interpret200 at h
  repeat' split at h
  all_goals first
    | exact interpretCandidates_cases p conv j v c h
    | (cases h; try exact Or.inl ⟨rfl, ⟨_, rfl⟩⟩)

theorem attemptBody_cases (p : String) (conv : List Turn) (ar : AttemptResult) (v : JVal)
    (c : List Turn) (h : attemptBody p conv ar = .ok (.ret v c)) :
    (c = conv ∧ ∃ s, v = .str s) ∨
    c = conv ++ [⟨"user", .str p⟩, ⟨"model", v⟩] := by
  cases ar with
  | raised e => rw [attemptBody_raised] at h; cases h
  | resp status jr t =>
    by_cases h200 : status = 200
    · subst h200
      cases jr with
      | error e => rw [attemptBody_200_json_err] at h; cases h
      | ok j =>
        cases hi : interpret200 p conv j with
        | error e => rw [attemptBody_200_err p conv j t e hi] at h; cases h
        | ok vc =>
          obtain ⟨v', c'⟩ := vc
          rw [attemptBody_200_ok p conv j t v' c' hi] at h
          injection h with h'
          injection h' with hv hc
          subst hv
          subst hc
          exact interpret200_cases p conv j _ _ hi
    · by_cases h404 : status = 404
      · subst h404
        rw [attemptBody_404] at h
        injection h with h'
        injection h' with hv hc
        subst hv
        subst hc
        exact Or.inl ⟨rfl, ⟨_, rfl⟩⟩
      · by_cases h429 : status = 429
        · subst h429
          rw [attemptBody_429] at h
          injection h with h'
          cases h'
        · have ho : attemptBody p conv (.resp status jr t) =
              .ok (.ret (.str ("Error: API returned status code " ++ toString status ++
                ". Response: " ++ t)) conv) := by
            simp [attemptBody, h200, h404, h429]
          rw [ho] at h
          injection h with h'
          injection h' with hv hc
          subst hv
          subst hc
          exact Or.inl ⟨rfl, ⟨_, rfl⟩⟩

theorem runAttempts_res_ret (p : String) (tr : Nat → AttemptResult) (atts : List Nat) :
    ∀ (conv : List Turn) (sleeps : List Nat) (calls : Nat) (v : JVal) (c : List Turn),
    (runAttempts p tr atts conv sleeps calls).res = .ret v c →
    (c = conv ∧ ∃ s, v = .str s) ∨
    c = conv ++ [⟨"user", .str p⟩, ⟨"model", v⟩] := by
  induction atts with
  | nil =>
    intro conv sleeps calls v c h
    simp [runAttempts] at h
  | cons a rest ih =>
    intro conv sleeps calls v c h
    unfold runAttempts at h
    cases hb : attemptBody p conv (tr a) with
    | error e =>
      cases e with
      | requestException m =>
        simp only [hb] at h
        split at h
        · exact ih conv (sleeps ++ [RATE_LIMIT_DELAY]) (calls + 1) v c h
        · simp only [] at h
          injection h with hv hc
          subst hv
          subst hc
          exact Or.inl ⟨rfl, ⟨_, rfl⟩⟩
      | keyError k => simp only [hb] at h; cases h
      | typeError m => simp only [hb] at h; cases h
      | indexError m => simp only [hb] at h; cases h
      | attributeError m => simp only [hb] at h; cases h
      | valueError m => simp only [hb] at h; cases h
    | ok bo =>
      cases bo with
      | ret v' c' =>
        simp only [hb] at h
        injection h with hv hc
        subst hv
        subst hc
        exact attemptBody_cases p conv (tr a) _ _ hb
      | rate429 =>
        simp only [hb] at h
        split at h
        · exact ih conv (sleeps ++ [RATE_LIMIT_DELAY * (a + 1)]) (calls + 1) v c h
        · simp only [] at h
          injection h with hv hc
          subst hv
          subst hc
          exact Or.inl ⟨rfl, ⟨_, rfl⟩⟩

theorem get_response_cases (p : String) (conv : List Turn) (tr : Nat → AttemptResult) :
    ((get_response p conv tr).conv = conv ∧ ∃ s, (get_response p conv tr).retval = .str s) ∨
    (get_response p conv tr).conv =
      conv ++ [⟨"user", .str p⟩, ⟨"model", (get_response p conv tr).retval⟩] := by
  rcases hr : runAttempts p tr (List.range MAX_RETRIES) conv [] 0 with ⟨res, sl, ca⟩
  cases res with
  | ret v c =>
    have hg : get_response p conv tr = ⟨v, c, sl, ca⟩ := get_response_of_ret p conv tr v c sl ca hr
    have hres : (runAttempts p tr (List.range MAX_RETRIES) conv [] 0).res = .ret v c := by
      rw [hr]
    rcases runAttempts_res_ret p tr (List.range MAX_RETRIES) conv [] 0 v c hres with hl | hr2
    · left
      rw [hg]
      exact ⟨hl.1, hl.2⟩
    · right
      rw [hg]
      exact hr2
  | exc e =>
    have hg : get_response p conv tr = ⟨.str (outerHandlerMessage e), conv, sl, ca⟩ :=
      get_response_of_exc p conv tr e sl ca hr
    left
    rw [hg]
    exact ⟨rfl, ⟨_, rfl⟩⟩
  | fellThrough =>
    have hg : get_response p conv tr = ⟨.str "An unexpected error occurred", conv, sl, ca⟩ := by
      unfold get_response
      rw [hr]
    left
    rw [hg]
    exact ⟨rfl, ⟨_, rfl⟩⟩

theorem alternatesUM_append_pair (x y : JVal) :
    ∀ l : List Turn, alternatesUM l = true →
      alternatesUM (l ++ [⟨"user", x⟩, ⟨"model", y⟩]) = true
  | [], _ => by simp [alternatesUM]
  | [t], h => by simp [alternatesUM] at h
  | u :: m :: rest, h => by
    simp only [alternatesUM, List.cons_append, Bool.and_eq_true, beq_iff_eq] at h ⊢
    exact ⟨h.1, alternatesUM_append_pair x y rest h.2⟩

theorem chatSucceeds_growth :
    ∀ (conv : List Turn) (calls : List (String × (Nat → AttemptResult))) (final : List Turn),
    ChatSucceeds conv calls final →
    final.length = conv.length + 2 * calls.length ∧
    (alternatesUM conv = true → alternatesUM final = true) := by
  intro conv calls final hcs
  induction hcs with
  | nil conv => simp
  | @cons p tr conv final rest hs hrest ih =>
    obtain ⟨ihlen, ihalt⟩ := ih
    unfold succAt at hs
    rw [hs] at ihlen ihalt
    refine ⟨?_, ?_⟩
    · rw [ihlen]
      simp only [List.length_append, List.length_cons, List.length_nil]
      omega
    · intro halt
      exact ihalt (alternatesUM_append_pair _ _ conv halt)

/-- C2: the handler either appends exactly the pair of turns user-prompt
then model-reply (the success path) or appends nothing (every non-success
outcome); consequently a history driven from empty through any sequence of
N successful exchanges has length exactly 2N with roles alternating user,
model, user, model, ... in call order. -/
theorem C2_history_growth :
    (∀ (p : String) (conv : List Turn) (tr : Nat → AttemptResult),
        (get_response p conv tr).conv = conv ∨ succAt p tr conv) ∧
    (∀ (calls : List (String × (Nat → AttemptResult))) (final : List Turn),
        ChatSucceeds [] calls final →
        final.length = 2 * calls.length ∧ alternatesUM final = true) := by
  constructor
  · intro p conv tr
    rcases get_response_cases p conv tr with ⟨hc, _⟩ | hsucc
    · exact Or.inl hc
    · exact Or.inr hsucc
  · intro calls final h
    have hg := chatSucceeds_growth [] calls final h
    exact ⟨by simpa using hg.1, hg.2 rfl⟩

/-- C2 witness: two concrete successful exchanges starting from the empty
history produce the four-turn history with alternating roles, as computed
by the growth theorem. -/
theorem C2_witness :
    ChatSucceeds [] [("hi", trOk), ("again", trOk)]
      [⟨"user", .str "hi"⟩, ⟨"model", .str "hello"⟩, ⟨"user", .str "again"⟩,
        ⟨"model", .str "hello"⟩] ∧
    ([⟨"user", .str "hi"⟩, ⟨"model", .str "hello"⟩, ⟨"user", .str "again"⟩,
      ⟨"model", .str "hello"⟩] : List Turn).length = 2 * 2 ∧
    alternatesUM [⟨"user", .str "hi"⟩, ⟨"model", .str "hello"⟩, ⟨"user", .str "again"⟩,
      ⟨"model", .str "hello"⟩] = true := by
  have h1 : succAt "hi" trOk [] := by
    unfold succAt
    rfl
  have h2 : succAt "again" trOk ((get_response "hi" [] trOk).conv) := by
    unfold succAt
    rfl
  have hc : ChatSucceeds [] [("hi", trOk), ("again", trOk)]
      ((get_response "again" ((get_response "hi" [] trOk).conv) trOk).conv) :=
    ChatSucceeds.cons h1 (ChatSucceeds.cons h2 (ChatSucceeds.nil _))
  have hfinal : (get_response "again" ((get_response "hi" [] trOk).conv) trOk).conv =
      [⟨"user", .str "hi"⟩, ⟨"model", .str "hello"⟩, ⟨"user", .str "again"⟩,
        ⟨"model", .str "hello"⟩] := rfl
  have hmain := C2_history_growth.2 [("hi", trOk), ("again", trOk)] _ hc
  rw [hfinal] at hc hmain
  exact ⟨hc, hmain.1, hmain.2⟩

/-- C10 counterexample: `get_response` does not always return a string.
For a 200 body whose `candidates[0].content.parts[0].text` is the JSON
number 42, the success path returns that value unchanged, so the returned
value is the number 42 and not a string (though the turn pair is still
appended). -/
theorem C10_counterexample :
    (get_response "q" [] trNumText).retval = .num 42 ∧
    ((get_response "q" [] trNumText).retval).isStr = false ∧
    (get_response "q" [] trNumText).conv =
      [⟨"user", .str "q"⟩, ⟨"model", .num 42⟩] :=
  ⟨rfl, rfl, rfl⟩

/-- C10 amended: `get_response` is total over the error model — every
transport outcome (any status, any body shape, any missing field, any
raised exception other than a process interrupt) is converted to a result
rather than propagating: the inner handler absorbs request exceptions, the
outer handler turns every other exception into an error-message string, and
the exhausted-loop fallback is itself a string.  On every path the returned
value is a string, except that the success path returns the decoded
`parts[0].text` JSON value as-is (and then the turn pair is appended). -/
theorem C10_total_error_model (p : String) (conv : List Turn) (tr : Nat → AttemptResult) :
    ((∃ s, (get_response p conv tr).retval = .str s) ∧ (get_response p conv tr).conv = conv) ∨
    (get_response p conv tr).conv =
      conv ++ [⟨"user", .str p⟩, ⟨"model", (get_response p conv tr).retval⟩] := by
  rcases get_response_cases p conv tr with ⟨hc, hs⟩ | hsucc
  · exact Or.inl ⟨hs, hc⟩
  · exact Or.inr hsucc

theorem dropWhile_replicate_ws (n : Nat) (l : List Char) :
    (List.replicate n ' ' ++ l).dropWhile pyWhitespaceChar = l.dropWhile pyWhitespaceChar := by
  induction n with
  | zero => rfl
  | succ k ih =>
    have hws : pyWhitespaceChar ' ' = true := rfl
    simp [List.replicate_succ, List.dropWhile_cons, hws, ih]

theorem dropWhile_replicate_not (c : Char) (n : Nat) (hc : pyWhitespaceChar c = false) :
    (List.replicate n c).dropWhile pyWhitespaceChar = List.replicate n c := by
  cases n with
  | zero => rfl
  | succ k => simp [List.replicate_succ, List.dropWhile_cons, hc]

theorem pyStrip_longSpaces : pyStrip longSpacesInput = ['h', 'i'] := by
  unfold pyStrip longSpacesInput
  rw [dropWhile_replicate_ws]
  rfl

theorem pyStrip_longLetters : pyStrip longLettersInput = longLettersInput := by
  unfold pyStrip longLettersInput
  rw [dropWhile_replicate_not 'a' (MAX_TOKENS + 1) rfl]
  rw [List.reverse_replicate]
  rw [dropWhile_replicate_not 'a' (MAX_TOKENS + 1) rfl]
  rw [List.reverse_replicate]

/-- C8 counterexample: the session loop measures the length of the
stripped line, not of the raw input line.  A raw line of `MAX_TOKENS + 1`
spaces followed by `hi` is longer than `MAX_TOKENS` characters, yet the
loop strips it to the two-character prompt, does not print the rejection,
and invokes the handler — one HTTP call is made. -/
theorem C8_counterexample :
    longSpacesInput.length > MAX_TOKENS ∧
    mainStep longSpacesInput = .sentPrompt ['h', 'i'] ∧
    mainStep longSpacesInput ≠ .rejectedTooLong ∧
    stepHttpCalls longSpacesInput [] tr404 = 1 := by
  have hstep : mainStep longSpacesInput = .sentPrompt ['h', 'i'] := by
    unfold mainStep
    rw [pyStrip_longSpaces]
    rfl
  refine ⟨?_, hstep, ?_, ?_⟩
  · have hlen : longSpacesInput.length = (MAX_TOKENS + 1) + 2 := by
      unfold longSpacesInput
      rw [List.length_append, List.length_replicate]
      rfl
    rw [hlen]
    omega
  · rw [hstep]
    intro hx
    cases hx
  · unfold stepHttpCalls
    rw [hstep]
    rfl

/-- C8 amended: the guard applies to the stripped line.  Every raw input
line whose length after stripping surrounding whitespace exceeds
`MAX_TOKENS` is locally rejected by the session loop, and the handler is
never invoked for it — the HTTP call count stays at zero. -/
theorem C8_length_guard (raw : List Char) (h : (pyStrip raw).length > MAX_TOKENS) :
    mainStep raw = .rejectedTooLong ∧
    ∀ (conv : List Turn) (tr : Nat → AttemptResult), stepHttpCalls raw conv tr = 0 := by
  have hM : MAX_TOKENS = 30720 := rfl
  have hne : pyStrip raw ≠ [] := by
    intro h0
    rw [h0] at h
    simp only [List.length_nil] at h
    omega
  have hql : pyLower (pyStrip raw) ≠ "quit".toList := by
    intro hq
    have hlen := congrArg List.length hq
    simp only [pyLower, List.length_map] at hlen
    rw [show ("quit".toList).length = 4 from rfl] at hlen
    omega
  have hxl : pyLower (pyStrip raw) ≠ "exit".toList := by
    intro hq
    have hlen := congrArg List.length hq
    simp only [pyLower, List.length_map] at hlen
    rw [show ("exit".toList).length = 4 from rfl] at hlen
    omega
  have hcl : pyLower (pyStrip raw) ≠ "clear".toList := by
    intro hq
    have hlen := congrArg List.length hq
    simp only [pyLower, List.length_map] at hlen
    rw [show ("clear".toList).length = 5 from rfl] at hlen
    omega
  have hstep : mainStep raw = .rejectedTooLong := by
    unfold mainStep
    rw [if_neg hne]
    rw [if_neg (show ¬(pyLower (pyStrip raw) = "quit".toList ∨
      pyLower (pyStrip raw) = "exit".toList) from fun hor => hor.elim hql hxl)]
    rw [if_neg hcl]
    rw [if_pos h]
  refine ⟨hstep, ?_⟩
  intro conv tr
  unfold stepHttpCalls
  rw [hstep]

/-- C8 witness: the amended guard at a concrete raw line of
`MAX_TOKENS + 1` letters, which is rejected locally with zero HTTP
calls. -/
theorem C8_witness :
    mainStep longLettersInput = .rejectedTooLong ∧
    stepHttpCalls longLettersInput [] tr404 = 0 := by
  have h : (pyStrip longLettersInput).length > MAX_TOKENS := by
    rw [pyStrip_longLetters]
    unfold longLettersInput
    rw [List.length_replicate]
    omega
  have hmain := C8_length_guard longLettersInput h
  exact ⟨hmain.1, hmain.2 [] tr404⟩
